import Mathlib

/-!
# Profit-by-Lane dashboard: shallow embedding of the reconciliation queries

This file embeds, in Lean, the SQL/pandas logic of the `profit_by_lane`
repository (src/Summary_View.py, src/pages/3_Profitability_Diagnostics.py)
and proves/refutes the claims of the specification against it.

Conventions of the embedding:
* One `Leg` is one row of the `otp_reports` table (one shipment leg).
* Monetary columns (`revenueAllocationNumber`, `costAllocationNumber`) are
  SQL DECIMALs, modelled as `Option ℚ`; `COALESCE(x, 0)` is `Option.getD 0`.
* An `Order` is the collection of the table rows sharing one `orderCode`,
  already restricted by the caller-side filters the spec treats as external
  (date range, customer, lane).  The page-specific status/market filters of
  the `WHERE` clauses are modelled explicitly.
* `MAX` over a nullable SQL string column ignores NULLs and returns NULL on
  the empty set: modelled with `Option`.  MySQL's default case-insensitive
  collation makes the status string `canceled` sort strictly below
  `Complete`, which is what the `MAX(shipmentStatus)`-style aggregates rely
  on; the embedding hard-codes that two-point order on the statuses that
  survive the WHERE filters.
* SQL three-valued logic: a correlated `SUM` subquery over an empty set is
  NULL, and `NULL < 1` is not TRUE; modelled with `Option ℚ` and a `match`.
-/

namespace ProfitByLane

/-- SQL `shipmentStatus` values relevant to the queries (`removed` and anything
else is filtered out by every page's WHERE clause). -/
inductive Status where
  | complete
  | canceled
  | removed
  | otherSt
deriving DecidableEq, Repr

/-- SQL `shipmentType` values: the Summary "All" query dispatches on
Full Truckload / Less Than Truckload / everything else. -/
inductive Category where
  | ftl
  | ltl
  | parcel
  | otherCat
deriving DecidableEq, Repr

/-- One row of `otp_reports` (one shipment leg). -/
structure Leg where
  /-- SQL `mainShipment = 'YES'` -/
  main : Bool
  status : Status
  pick : String
  drop : String
  startMarket : Option String
  endMarket : Option String
  revenue : Option ℚ
  cost : Option ℚ
  /-- SQL `accessorialType = 'TONU'` -/
  tonu : Bool
deriving DecidableEq, Repr

/-- All rows sharing one `orderCode`, with the order-level shipment type. -/
structure Order where
  code : String
  category : Category
  legs : List Leg
deriving DecidableEq, Repr

/-- SQL `COALESCE(revenueAllocationNumber, 0)` -/
def rv (l : Leg) : ℚ := l.revenue.getD 0

/-- SQL `COALESCE(costAllocationNumber, 0)` -/
def cv (l : Leg) : ℚ := l.cost.getD 0

/-- A cross-dock leg: `pickLocationName = dropLocationName`. -/
def isXd (l : Leg) : Bool := l.pick == l.drop

/-- SQL `EXISTS (SELECT 1 FROM otp_reports o_xd WHERE o_xd.orderCode = ...
AND o_xd.pickLocationName = o_xd.dropLocationName)` — any status. -/
def hasXd (o : Order) : Bool := o.legs.any isXd

/-- SQL `startMarket IS NOT NULL AND startMarket != '' AND endMarket IS NOT NULL
AND endMarket != ''` (part of Summary_View's base WHERE). -/
def validMkt (l : Leg) : Bool :=
  (match l.startMarket with | some s => s != "" | none => false) &&
  (match l.endMarket with | some s => s != "" | none => false)

/-- Summary_View base WHERE, per row: Complete rows, plus canceled rows of
orders that have some cross-dock leg; markets non-null and non-empty. -/
def skept (o : Order) : List Leg :=
  o.legs.filter fun l =>
    validMkt l &&
    (l.status == .complete || (l.status == .canceled && hasXd o))

/-- Diagnostics base WHERE, per row:
`shipmentStatus IN ('Complete', 'canceled')` (no market filter). -/
def dkept (o : Order) : List Leg :=
  o.legs.filter fun l => l.status == .complete || l.status == .canceled

/- ## Order-metrics CTE (`order_metrics` / `ltl_order_metrics`) -/

/-- SQL `SUM(CASE WHEN mainShipment='YES' AND shipmentStatus='Complete' THEN
COALESCE(revenueAllocationNumber,0) ELSE 0 END)` -/
def yesRev (legs : List Leg) : ℚ :=
  ((legs.filter fun l => l.main && l.status == .complete).map rv).sum

/-- SQL `SUM(... mainShipment='NO' AND shipmentStatus='Complete' ... revenue)` -/
def noRev (legs : List Leg) : ℚ :=
  ((legs.filter fun l => !l.main && l.status == .complete).map rv).sum

/-- SQL `SUM(... mainShipment='NO' AND pick=drop AND 'Complete' ... revenue)` -/
def xdLegRev (legs : List Leg) : ℚ :=
  ((legs.filter fun l => !l.main && isXd l && l.status == .complete).map rv).sum

/-- SQL `SUM(... mainShipment='YES' AND shipmentStatus='Complete' ... cost)` -/
def yesCost (legs : List Leg) : ℚ :=
  ((legs.filter fun l => l.main && l.status == .complete).map cv).sum

/-- SQL `SUM(... mainShipment='NO' AND shipmentStatus='Complete' ... cost)` -/
def noCost (legs : List Leg) : ℚ :=
  ((legs.filter fun l => !l.main && l.status == .complete).map cv).sum

/-- SQL `SUM(... mainShipment='NO' AND pick=drop AND 'Complete' ... cost)` -/
def xdNoCost (legs : List Leg) : ℚ :=
  ((legs.filter fun l => !l.main && isXd l && l.status == .complete).map cv).sum

/-- SQL `SUM(CASE WHEN shipmentStatus='canceled' AND pick=drop THEN revenue'` -/
def canceledXdRev (legs : List Leg) : ℚ :=
  ((legs.filter fun l => l.status == .canceled && isXd l).map rv).sum

/-- SQL `SUM(CASE WHEN shipmentStatus='canceled' AND pick=drop THEN cost)` -/
def canceledXdCost (legs : List Leg) : ℚ :=
  ((legs.filter fun l => l.status == .canceled && isXd l).map cv).sum

/-- SQL `SUM(CASE WHEN accessorialType='TONU' THEN revenue)` -/
def tonuRev (legs : List Leg) : ℚ := ((legs.filter fun l => l.tonu).map rv).sum

/-- SQL `SUM(CASE WHEN accessorialType='TONU' THEN cost)` -/
def tonuCost (legs : List Leg) : ℚ := ((legs.filter fun l => l.tonu).map cv).sum

/-- SQL `MAX(CASE WHEN mainShipment='YES' THEN shipmentStatus END)` over the
kept rows, whose statuses are only `Complete` / `canceled`; in MySQL's
case-insensitive collation `canceled < Complete`, so the MAX is `Complete`
if any primary row is Complete, else `canceled` if any primary row is
canceled, else NULL. -/
def orderStatus (legs : List Leg) : Option Status :=
  if legs.any (fun l => l.main && l.status == .complete) then some .complete
  else if legs.any (fun l => l.main && l.status == .canceled) then some .canceled
  else none

/-- The correlated subquery `SELECT SUM(COALESCE(costAllocationNumber,0))
FROM otp_reports o2 WHERE o2.orderCode = ... AND o2.mainShipment='YES' AND
o2.shipmentStatus='Complete'`: NULL when the order has no such row.  It runs
against the full table, so it takes the order's complete leg list. -/
def primaryCostSum (full : List Leg) : Option ℚ :=
  let ps := full.filter fun l => l.main && l.status == .complete
  if ps.isEmpty then none else some ((ps.map cv).sum)

/-- SQL `MAX(CASE WHEN mainShipment='NO' AND shipmentStatus='Complete' AND
ABS(COALESCE(cost,0) - (subquery)) < 1 THEN 1 ELSE 0 END)`; the SQL NULL of
the subquery makes the `< 1` comparison non-TRUE, hence the row scores 0.
The 1/0 integer flag is modelled as a `Bool`. -/
def hasMatchingNoRow (legs full : List Leg) : Bool :=
  legs.any fun l =>
    !l.main && l.status == .complete &&
      (match primaryCostSum full with
       | none => false
       | some s => decide (|cv l - s| < 1))

/-- SQL `COALESCE(MAX(CASE WHEN mainShipment='YES' THEN startMarket END),'NA')`:
the CASE is NULL on non-primary rows and on NULL markets, MAX ignores those,
and COALESCE substitutes the sentinel only when the MAX itself is NULL. -/
def laneStart (legs : List Leg) : String :=
  ((legs.filterMap fun l => if l.main then l.startMarket else none).max?).getD "NA"

/-- SQL `COALESCE(MAX(CASE WHEN mainShipment='YES' THEN endMarket END),'NA')` -/
def laneEnd (legs : List Leg) : String :=
  ((legs.filterMap fun l => if l.main then l.endMarket else none).max?).getD "NA"

/-- The `order_metrics` CTE output for one order: `legs` are the rows kept
by the page's WHERE clause, `full` the order's complete row list (the
correlated duplicate-detection subquery is not WHERE-filtered). -/
structure OrderMetrics where
  order_status : Option Status
  yes_rev : ℚ
  no_rev : ℚ
  xd_leg_rev : ℚ
  yes_cost : ℚ
  no_cost : ℚ
  xd_no_cost : ℚ
  canceled_xd_rev : ℚ
  canceled_xd_cost : ℚ
  tonu_rev : ℚ
  tonu_cost : ℚ
  has_matching_no_row : Bool
  startMkt : String
  endMkt : String
deriving DecidableEq, Repr

/-- SQL `GROUP BY orderCode` row of the `order_metrics` CTE. -/
def computeMetrics (legs full : List Leg) : OrderMetrics where
  order_status := orderStatus legs
  yes_rev := yesRev legs
  no_rev := noRev legs
  xd_leg_rev := xdLegRev legs
  yes_cost := yesCost legs
  no_cost := noCost legs
  xd_no_cost := xdNoCost legs
  canceled_xd_rev := canceledXdRev legs
  canceled_xd_cost := canceledXdCost legs
  tonu_rev := tonuRev legs
  tonu_cost := tonuCost legs
  has_matching_no_row := hasMatchingNoRow legs full
  startMkt := laneStart legs
  endMkt := laneEnd legs

/- ## `order_calculated` CTE: the smart-strategy CASE expressions -/

/-- The `smart_revenue` CASE (identical text in Summary_View.py lines
230-237 and 3_Profitability_Diagnostics.py lines 118-125).  SQL's
`order_status = 'canceled'` is not TRUE when `order_status` is NULL. -/
def smartRevenue (m : OrderMetrics) : ℚ :=
  if m.order_status = some .canceled then m.canceled_xd_rev
  else if m.yes_rev > 0 ∧ m.no_rev = 0 then m.yes_rev
  else if m.yes_rev = 0 then m.no_rev
  else if |(m.no_rev - m.xd_leg_rev) - m.yes_rev| < 1 then m.no_rev
  else if m.yes_rev > 2 * m.no_rev then m.yes_rev + m.no_rev
  else m.no_rev

/-- The `smart_cost` CASE (Summary_View.py lines 239-247,
3_Profitability_Diagnostics.py lines 127-135). -/
def smartCost (m : OrderMetrics) : ℚ :=
  if m.order_status = some .canceled then m.canceled_xd_cost
  else if m.yes_cost > 0 ∧ m.no_cost = 0 then m.yes_cost
  else if m.yes_cost = 0 ∧ m.no_cost > 0 then m.no_cost
  else if |(m.no_cost - m.xd_no_cost) - m.yes_cost| < 20 then
    (if m.has_matching_no_row then m.yes_cost else m.yes_cost + m.no_cost)
  else if m.no_cost > m.yes_cost * 5 then m.yes_cost + m.no_cost
  else m.yes_cost + m.xd_no_cost

/-- SQL `CASE WHEN order_status='canceled' THEN canceled_xd_cost
ELSE xd_no_cost END` -/
def smartXdCost (m : OrderMetrics) : ℚ :=
  if m.order_status = some .canceled then m.canceled_xd_cost else m.xd_no_cost

/- ## Per-order rows of the Summary_View "All" query -/

/-- One row of the `all_orders` union in the Summary "All" query. -/
structure Row where
  code : String
  order_status : Option Status
  startMkt : String
  endMkt : String
  smart_revenue : ℚ
  smart_cost : ℚ
  crossdock_cost : ℚ
  tonu_rev : ℚ
  tonu_cost : ℚ
deriving DecidableEq, Repr

/-- The `ltl_order_calculated` row of one LTL order (Summary "All" mode,
also the single-type LTL query): metrics over the kept rows, duplicate
subquery over the full table. -/
def ltlRow (o : Order) : Row :=
  let m := computeMetrics (skept o) o.legs
  { code := o.code, order_status := m.order_status,
    startMkt := m.startMkt, endMkt := m.endMkt,
    smart_revenue := smartRevenue m, smart_cost := smartCost m,
    crossdock_cost := smartXdCost m,
    tonu_rev := m.tonu_rev, tonu_cost := m.tonu_cost }

/-- SQL `MAX(shipmentStatus)` of the `ftl_orders` CTE: over ALL kept rows of the
order (not only primary ones); kept statuses are `Complete`/`canceled` and
`canceled < Complete` in MySQL's case-insensitive collation. -/
def ftlStatus (legs : List Leg) : Option Status :=
  if legs.any (fun l => l.status == .complete) then some .complete
  else if legs.any (fun l => l.status == .canceled) then some .canceled
  else none

/-- SQL `ftl_orders.smart_revenue`: `SUM(CASE WHEN shipmentStatus='Complete'
THEN revenue WHEN shipmentStatus='canceled' AND pick=drop THEN revenue
ELSE 0 END)`. -/
def ftlRevenue (legs : List Leg) : ℚ :=
  (legs.map fun l =>
    if l.status == .complete then rv l
    else if l.status == .canceled && isXd l then rv l
    else 0).sum

/-- SQL `ftl_orders.smart_cost` (same CASE shape on the cost column). -/
def ftlCost (legs : List Leg) : ℚ :=
  (legs.map fun l =>
    if l.status == .complete then cv l
    else if l.status == .canceled && isXd l then cv l
    else 0).sum

/-- SQL `ftl_orders.crossdock_cost`: `SUM(CASE WHEN pick=drop THEN cost)` over
all kept rows, any status. -/
def ftlXdCost (legs : List Leg) : ℚ :=
  (legs.map fun l => if isXd l then cv l else 0).sum

/-- The `ftl_orders` row of one FTL order.  The SQL groups by
`orderCode, startMarket, endMarket`; like the spec, the embedding treats an
order's rows as sharing one market pair, so the group is the whole order
(the row markets are read off the first kept row). -/
def ftlRow (o : Order) : Row :=
  let legs := skept o
  { code := o.code, order_status := ftlStatus legs,
    startMkt := (match legs.head? with | some l => l.startMarket.getD "NA" | none => "NA"),
    endMkt := (match legs.head? with | some l => l.endMarket.getD "NA" | none => "NA"),
    smart_revenue := ftlRevenue legs, smart_cost := ftlCost legs,
    crossdock_cost := ftlXdCost legs,
    tonu_rev := tonuRev legs, tonu_cost := tonuCost legs }

/-- The `other_orders` CTE keeps only `mainShipment='YES'` rows. -/
def otherLegs (o : Order) : List Leg := (skept o).filter fun l => l.main

/-- Revenue CASE of `other_orders` (Parcel and remaining types):
`SUM(CASE WHEN 'Complete' THEN revenue WHEN 'canceled' AND pick=drop THEN
revenue ELSE 0 END)` over the group's rows. -/
def otherRevenue (legs : List Leg) : ℚ :=
  (legs.map fun l =>
    if l.status == .complete then rv l
    else if l.status == .canceled && isXd l then rv l
    else 0).sum

/-- Cost CASE of `other_orders`. -/
def otherCost (legs : List Leg) : ℚ :=
  (legs.map fun l =>
    if l.status == .complete then cv l
    else if l.status == .canceled && isXd l then cv l
    else 0).sum

/-- SQL `other_orders.crossdock_cost`: `SUM(CASE WHEN pick=drop THEN cost)`. -/
def otherXdCost (legs : List Leg) : ℚ :=
  (legs.map fun l => if isXd l then cv l else 0).sum

/-- One `other_orders` group row for the order's primary legs of one
status (`GROUP BY orderCode, shipmentStatus, startMarket, endMarket`;
markets again treated as uniform per order). -/
def otherRowFor (o : Order) (s : Status) : Row :=
  let ls := (otherLegs o).filter fun l => l.status == s
  { code := o.code, order_status := some s,
    startMkt := (match ls.head? with | some l => l.startMarket.getD "NA" | none => "NA"),
    endMkt := (match ls.head? with | some l => l.endMarket.getD "NA" | none => "NA"),
    smart_revenue := otherRevenue ls, smart_cost := otherCost ls,
    crossdock_cost := otherXdCost ls,
    tonu_rev := tonuRev ls, tonu_cost := tonuCost ls }

/-- All `other_orders` rows of one order: one per status value among its
kept primary rows (an order with no kept primary row yields no row). -/
def otherRows (o : Order) : List Row :=
  (if (otherLegs o).any (fun l => l.status == .complete)
   then [otherRowFor o .complete] else []) ++
  (if (otherLegs o).any (fun l => l.status == .canceled)
   then [otherRowFor o .canceled] else [])

/-- The `all_orders` CTE of the Summary "All" query: the union of the three
category-filtered per-order CTEs (`shipmentType='Less Than Truckload'`,
`shipmentType='Full Truckload'`, `shipmentType NOT IN (both)`). -/
def summaryAllRows (os : List Order) : List Row :=
  ((os.filter fun o => o.category == .ltl).map ltlRow)
  ++ ((os.filter fun o => o.category == .ftl).map ftlRow)
  ++ ((os.filter fun o => o.category != .ftl && o.category != .ltl).flatMap otherRows)

/-- The per-order reconciled revenue of the Diagnostics page in "All" mode:
`get_base_conditions` adds no `shipmentType` filter when the type is "All",
and `get_lane_profitability` applies the one (LTL) smart strategy to every
order regardless of its category. -/
def diagRevenue (o : Order) : ℚ := smartRevenue (computeMetrics (dkept o) o.legs)

/-- The per-order reconciled cost of the Diagnostics page in "All" mode. -/
def diagCost (o : Order) : ℚ := smartCost (computeMetrics (dkept o) o.legs)

/-- One `order_calculated` row of the Diagnostics query. -/
def diagRow (o : Order) : Row :=
  let m := computeMetrics (dkept o) o.legs
  { code := o.code, order_status := m.order_status,
    startMkt := m.startMkt, endMkt := m.endMkt,
    smart_revenue := smartRevenue m, smart_cost := smartCost m,
    crossdock_cost := smartXdCost m,
    tonu_rev := m.tonu_rev, tonu_cost := m.tonu_cost }

/-- The Diagnostics `order_calculated` rows: SQL `GROUP BY orderCode`
produces a group exactly for the orders with at least one kept row. -/
def diagRows (os : List Order) : List Row :=
  (os.filter fun o => !(dkept o).isEmpty).map diagRow

/- ## Rollup Aggregator (Diagnostics lane grouping) -/

/-- The lane keys occurring among per-order rows (`GROUP BY startMarket,
endMarket`). -/
def laneKeys (rows : List Row) : List (String × String) :=
  (rows.map fun r => (r.startMkt, r.endMkt)).dedup

/-- The rows of one lane group. -/
def laneRows (rows : List Row) (k : String × String) : List Row :=
  rows.filter fun r => (r.startMkt, r.endMkt) == k

/-- SQL `COUNT(DISTINCT orderCode)` of one lane group. -/
def laneOrderCount (rows : List Row) (k : String × String) : ℕ :=
  ((laneRows rows k).map Row.code).dedup.length

/-- SQL `SUM(smart_revenue) - SUM(smart_cost)` of one lane group. -/
def laneProfit (rows : List Row) (k : String × String) : ℚ :=
  ((laneRows rows k).map Row.smart_revenue).sum
    - ((laneRows rows k).map Row.smart_cost).sum

/-- The lanes shown by `get_lane_profitability`: `HAVING COUNT(DISTINCT
orderCode) >= min_orders` plus, when "show only negative margin lanes" is
on, `AND SUM(smart_revenue) - SUM(smart_cost) < 0`. -/
def diagLanes (rows : List Row) (minOrders : ℕ) (onlyNeg : Bool) :
    List (String × String) :=
  (laneKeys rows).filter fun k =>
    minOrders ≤ laneOrderCount rows k &&
      (!onlyNeg || decide (laneProfit rows k < 0))

/- ## Derived percentages (Diagnostics SQL, lines 150-152) -/

/-- SQL `CASE WHEN SUM(smart_revenue) > 0 THEN (SUM(smart_revenue) -
SUM(smart_cost)) / SUM(smart_revenue) * 100 ELSE 0 END` -/
def marginPct (revenue cost : ℚ) : ℚ :=
  if 0 < revenue then (revenue - cost) / revenue * 100 else 0

/-- SQL `CASE WHEN SUM(smart_cost) > 0 THEN SUM(crossdock_cost) /
SUM(smart_cost) * 100 ELSE 0 END` -/
def xdCostPct (cost crossdock : ℚ) : ℚ :=
  if 0 < cost then crossdock / cost * 100 else 0


/-- Modelled from the spec: the "All categories" rollup-mode sentence —
"process each category with its own strategy above, then union the
resulting per-order reconciled rows".  Used to compare the Summary "All"
union against per-order category dispatch. -/
def perCategoryRows (o : Order) : List Row :=
  match o.category with
  | .ltl => [ltlRow o]
  | .ftl => [ftlRow o]
  | _ => otherRows o

/- ## Concrete inputs for witnesses and counterexamples -/

/-- A primary Complete leg: revenue 100, cost 200, markets LAX→DFW. -/
def legP : Leg :=
  { main := true, status := .complete, pick := "A", drop := "B",
    startMarket := some "LAX", endMarket := some "DFW",
    revenue := some 100, cost := some 200, tonu := false }

/-- A secondary Complete cross-dock leg: revenue 5, cost 15. -/
def legX : Leg :=
  { main := false, status := .complete, pick := "C", drop := "C",
    startMarket := some "LAX", endMarket := some "DFW",
    revenue := some 5, cost := some 15, tonu := false }

/-- A secondary Complete non-cross-dock leg duplicating `legP`'s cost. -/
def legN : Leg :=
  { main := false, status := .complete, pick := "C", drop := "D",
    startMarket := some "LAX", endMarket := some "DFW",
    revenue := some 100, cost := some 200, tonu := false }

/-- A secondary-only Complete leg (an order with no primary leg). -/
def legSec : Leg :=
  { main := false, status := .complete, pick := "C", drop := "D",
    startMarket := some "LAX", endMarket := some "DFW",
    revenue := some 40, cost := some 30, tonu := false }

/-- A primary Complete leg whose `startMarket` is the empty string. -/
def legEmptyMkt : Leg :=
  { main := true, status := .complete, pick := "A", drop := "B",
    startMarket := some "", endMarket := some "LAX",
    revenue := some 10, cost := some 5, tonu := false }

/-- A primary Complete leg whose `endMarket` is NULL. -/
def legNullEnd : Leg :=
  { main := true, status := .complete, pick := "A", drop := "B",
    startMarket := some "LAX", endMarket := none,
    revenue := some 10, cost := some 5, tonu := false }

/-- A primary canceled leg that is not a cross-dock leg. -/
def legPC : Leg :=
  { main := true, status := .canceled, pick := "A", drop := "B",
    startMarket := some "LAX", endMarket := some "DFW",
    revenue := some 5, cost := some 5, tonu := false }

/-- A secondary canceled cross-dock leg: revenue 10, cost 7. -/
def legSX : Leg :=
  { main := false, status := .canceled, pick := "C", drop := "C",
    startMarket := some "LAX", endMarket := some "DFW",
    revenue := some 10, cost := some 7, tonu := false }

/-- A canceled Parcel order whose only cross-dock canceled leg is
secondary: its canceled cross-dock revenue/cost (10 / 7) live on `legSX`,
which the Parcel query's `mainShipment = 'YES'` filter drops. -/
def oParcel : Order := { code := "P1", category := .parcel, legs := [legPC, legSX] }

/-- A primary Complete FTL leg: revenue 100, cost 100. -/
def legFP : Leg :=
  { main := true, status := .complete, pick := "A", drop := "B",
    startMarket := some "LAX", endMarket := some "DFW",
    revenue := some 100, cost := some 100, tonu := false }

/-- A Completed FTL order that also owns a canceled cross-dock leg. -/
def oFtl : Order := { code := "F1", category := .ftl, legs := [legFP, legSX] }

/-- A secondary Complete non-cross-dock leg: revenue 100, cost 50. -/
def legFS : Leg :=
  { main := false, status := .complete, pick := "C", drop := "D",
    startMarket := some "LAX", endMarket := some "DFW",
    revenue := some 100, cost := some 50, tonu := false }

/-- A Completed FTL order with two Complete legs (used to show the
Diagnostics "All" mode applying the LTL strategy to an FTL order). -/
def oFtl2 : Order := { code := "F2", category := .ftl, legs := [legFP, legFS] }

/-- A primary canceled cross-dock leg: revenue 20, cost 30. -/
def legCX : Leg :=
  { main := true, status := .canceled, pick := "C", drop := "C",
    startMarket := some "LAX", endMarket := some "DFW",
    revenue := some 20, cost := some 30, tonu := false }

/-- A canceled LTL order consisting of one canceled cross-dock leg. -/
def oLtlCan : Order := { code := "L1", category := .ltl, legs := [legCX] }

/-- A secondary Complete leg with negative cost (no primary leg exists in
its order). -/
def legNeg : Leg :=
  { main := false, status := .complete, pick := "C", drop := "D",
    startMarket := some "LAX", endMarket := some "DFW",
    revenue := some 0, cost := some (-5), tonu := false }

/-- Order metrics matching spec property P5: `primary_cost=200,
secondary_cost=215, secondary_crossdock_cost=15, has_matching=true`. -/
def mP5 : OrderMetrics :=
  { order_status := some .complete,
    yes_rev := 0, no_rev := 0, xd_leg_rev := 0,
    yes_cost := 200, no_cost := 215, xd_no_cost := 15,
    canceled_xd_rev := 0, canceled_xd_cost := 0,
    tonu_rev := 0, tonu_cost := 0,
    has_matching_no_row := true, startMkt := "LAX", endMkt := "DFW" }

/-- Order metrics matching spec property P4 branch 3: `primary_revenue=100,
secondary_revenue=105, secondary_crossdock_revenue=5`. -/
def mP4 : OrderMetrics :=
  { order_status := some .complete,
    yes_rev := 100, no_rev := 105, xd_leg_rev := 5,
    yes_cost := 0, no_cost := 0, xd_no_cost := 0,
    canceled_xd_rev := 0, canceled_xd_cost := 0,
    tonu_rev := 0, tonu_cost := 0,
    has_matching_no_row := false, startMkt := "LAX", endMkt := "DFW" }

/-- A single per-order row on lane LAX→DFW (for the HAVING-filter claim). -/
def rowW : Row :=
  { code := "O1", order_status := some .complete,
    startMkt := "LAX", endMkt := "DFW",
    smart_revenue := 100, smart_cost := 150, crossdock_cost := 0,
    tonu_rev := 0, tonu_cost := 0 }

end ProfitByLane

namespace ProfitByLane

/- ## Helper lemmas -/

/-- The order-status of a metrics record built for a Completed order is not
the canceled marker. -/
theorem some_complete_ne_some_canceled :
    (some Status.complete : Option Status) ≠ some Status.canceled := by decide

/- ## C2: the LTL cost decision tree -/

/-- C2: for every Completed LessThanTruckload order, the reconciled cost is
decided by the five cost branches evaluated in order with first match
winning: (1) primary-only, (2) secondary-only, (3) cross-dock tolerance 20
with duplicate suppression by `has_matching_secondary`, (4) secondary more
than five times primary, (5) default primary plus secondary cross-dock. -/
theorem claim_C2_ltl_cost_tree (m : OrderMetrics)
    (hst : m.order_status = some Status.complete) :
    (m.yes_cost > 0 ∧ m.no_cost = 0 → smartCost m = m.yes_cost) ∧
    (¬(m.yes_cost > 0 ∧ m.no_cost = 0) →
      (m.yes_cost = 0 ∧ m.no_cost > 0 → smartCost m = m.no_cost) ∧
      (¬(m.yes_cost = 0 ∧ m.no_cost > 0) →
        (|m.no_cost - m.xd_no_cost - m.yes_cost| < 20 →
          (m.has_matching_no_row = true → smartCost m = m.yes_cost) ∧
          (m.has_matching_no_row = false →
            smartCost m = m.yes_cost + m.no_cost)) ∧
        (¬(|m.no_cost - m.xd_no_cost - m.yes_cost| < 20) →
          (m.no_cost > 5 * m.yes_cost → smartCost m = m.yes_cost + m.no_cost) ∧
          (¬(m.no_cost > 5 * m.yes_cost) →
            smartCost m = m.yes_cost + m.xd_no_cost)))) := by
  have hne : m.order_status ≠ some Status.canceled := by
    rw [hst]; exact some_complete_ne_some_canceled
  refine ⟨fun h1 => ?_,
    fun h1 => ⟨fun h2 => ?_,
      fun h2 => ⟨fun h3 => ⟨fun hm => ?_, fun hm => ?_⟩,
        fun h3 => ⟨fun h4 => ?_, fun h4 => ?_⟩⟩⟩⟩ <;>
    unfold smartCost <;> rw [if_neg hne]
  · rw [if_pos h1]
  · rw [if_neg h1, if_pos h2]
  · rw [if_neg h1, if_neg h2, if_pos h3, if_pos hm]
  · rw [if_neg h1, if_neg h2, if_pos h3, if_neg (by simp [hm])]
  · rw [if_neg h1, if_neg h2, if_neg h3,
      if_pos (by rw [mul_comm] at h4; exact h4)]
  · rw [if_neg h1, if_neg h2, if_neg h3,
      if_neg (fun hc => h4 (by rw [mul_comm] at hc; exact hc))]

/-- Witness for C2 at spec example P5: primary cost 200, secondary 215,
secondary cross-dock 15, duplicate flag set — branch 3 suppresses the
secondary row and keeps 200. -/
theorem claim_C2_ltl_cost_tree_witness : smartCost mP5 = 200 := by
  have h := (((claim_C2_ltl_cost_tree mP5 rfl).2 (by norm_num [mP5])).2
    (by norm_num [mP5])).1 (by norm_num [mP5])
  exact h.1 rfl

/- ## C3: the LTL revenue decision tree -/

/-- C3: for every Completed LessThanTruckload order, the reconciled revenue
is decided by the five revenue branches evaluated in order with first match
winning: (1) primary-only, (2) primary zero, (3) cross-dock tolerance 1,
(4) primary more than twice secondary, (5) default secondary. -/
theorem claim_C3_ltl_revenue_tree (m : OrderMetrics)
    (hst : m.order_status = some Status.complete) :
    (m.yes_rev > 0 ∧ m.no_rev = 0 → smartRevenue m = m.yes_rev) ∧
    (¬(m.yes_rev > 0 ∧ m.no_rev = 0) →
      (m.yes_rev = 0 → smartRevenue m = m.no_rev) ∧
      (¬(m.yes_rev = 0) →
        (|m.no_rev - m.xd_leg_rev - m.yes_rev| < 1 →
          smartRevenue m = m.no_rev) ∧
        (¬(|m.no_rev - m.xd_leg_rev - m.yes_rev| < 1) →
          (m.yes_rev > 2 * m.no_rev → smartRevenue m = m.yes_rev + m.no_rev) ∧
          (¬(m.yes_rev > 2 * m.no_rev) → smartRevenue m = m.no_rev)))) := by
  have hne : m.order_status ≠ some Status.canceled := by
    rw [hst]; exact some_complete_ne_some_canceled
  refine ⟨fun h1 => ?_,
    fun h1 => ⟨fun h2 => ?_,
      fun h2 => ⟨fun h3 => ?_,
        fun h3 => ⟨fun h4 => ?_, fun h4 => ?_⟩⟩⟩⟩ <;>
    unfold smartRevenue <;> rw [if_neg hne]
  · rw [if_pos h1]
  · rw [if_neg h1, if_pos h2]
  · rw [if_neg h1, if_neg h2, if_pos h3]
  · rw [if_neg h1, if_neg h2, if_neg h3, if_pos h4]
  · rw [if_neg h1, if_neg h2, if_neg h3, if_neg h4]

/-- Witness for C3 at spec example P4 branch 3: primary revenue 100,
secondary 105, secondary cross-dock 5 — `|105 - 5 - 100| = 0 < 1`, so the
secondary revenue 105 wins. -/
theorem claim_C3_ltl_revenue_tree_witness : smartRevenue mP4 = 105 := by
  have h := (((claim_C3_ltl_revenue_tree mP4 rfl).2 (by norm_num [mP4])).2
    (by norm_num [mP4])).1 (by norm_num [mP4])
  simpa [mP4] using h

/- ## C6: the derived percentages -/

/-- C6 counterexample: at group revenue -100 and cost 0 the SQL
`CASE WHEN SUM(smart_revenue) > 0` guard returns 0, while the claimed
formula `profit/revenue*100` (whose denominator -100 is nonzero) gives
100. -/
theorem claim_C6_pct_counterexample :
    marginPct (-100) 0 = 0 ∧ ((-100 : ℚ) - 0) / (-100) * 100 = 100 ∧
      ((0 : ℚ) ≠ 100) := by
  refine ⟨?_, by norm_num, by norm_num⟩
  unfold marginPct
  rw [if_neg (by norm_num)]

/-- C6 amended: `margin_pct` is `profit/revenue*100` when revenue is
strictly positive and 0 otherwise (in particular 0 when the denominator is
0, so the guarded SQL expression never divides by zero); `crossdock_pct`
likewise with the cost denominator. -/
theorem claim_C6_pct_guarded (revenue cost crossdock : ℚ) :
    (0 < revenue → marginPct revenue cost = (revenue - cost) / revenue * 100) ∧
    (revenue ≤ 0 → marginPct revenue cost = 0) ∧
    (0 < cost → xdCostPct cost crossdock = crossdock / cost * 100) ∧
    (cost ≤ 0 → xdCostPct cost crossdock = 0) := by
  refine ⟨fun h => ?_, fun h => ?_, fun h => ?_, fun h => ?_⟩
  · unfold marginPct; rw [if_pos h]
  · unfold marginPct; rw [if_neg (not_lt.mpr h)]
  · unfold xdCostPct; rw [if_pos h]
  · unfold xdCostPct; rw [if_neg (not_lt.mpr h)]

/-- Witness for the amended C6 at revenue 200, cost 50 (positive
denominator) and at cost 0 (zero denominator). -/
theorem claim_C6_pct_guarded_witness :
    marginPct 200 50 = (200 - 50) / 200 * 100 ∧ xdCostPct 0 7 = 0 :=
  ⟨(claim_C6_pct_guarded 200 50 7).1 (by norm_num),
   (claim_C6_pct_guarded 0 0 7).2.2.2 (by norm_num)⟩

/- ## C9: the minimum-order HAVING filter -/

/-- C9: for every caller-specified minimum-order threshold, a lane group
whose distinct-order count is strictly below the threshold is absent from
the Diagnostics output, whatever its profit. -/
theorem claim_C9_min_order_filter (rows : List Row) (minOrders : ℕ)
    (onlyNeg : Bool) (k : String × String)
    (hlt : laneOrderCount rows k < minOrders) :
    k ∉ diagLanes rows minOrders onlyNeg := by
  intro hmem
  have hcond := (List.mem_filter.mp hmem).2
  rw [Bool.and_eq_true] at hcond
  have hle : minOrders ≤ laneOrderCount rows k := of_decide_eq_true hcond.1
  omega

/-- Witness for C9: a lane with one order does not appear under a
threshold of two. -/
theorem claim_C9_min_order_filter_witness :
    laneOrderCount [rowW] ("LAX", "DFW") < 2 ∧
      ("LAX", "DFW") ∉ diagLanes [rowW] 2 false := by
  have hlt : laneOrderCount [rowW] ("LAX", "DFW") < 2 := by
    simp [laneOrderCount, laneRows, rowW]
  exact ⟨hlt, claim_C9_min_order_filter [rowW] 2 false ("LAX", "DFW") hlt⟩

end ProfitByLane

namespace ProfitByLane

/- ## C10: duplicate detection without a Completed primary leg -/

/-- C10: when the order has no primary leg with status Complete, the
correlated primary-cost subquery is NULL, the SQL tolerance comparison is
never TRUE, so `has_matching_no_row` is 0; consequently the cost branch
with the tolerance-20 test always yields `yes_cost + no_cost`, never the
duplicate-suppressed `yes_cost` alone. -/
theorem claim_C10_no_primary_no_duplicate (kept full : List Leg)
    (hnp : (full.all fun l => !(l.main && l.status == Status.complete)) = true) :
    hasMatchingNoRow kept full = false ∧
    ((computeMetrics kept full).order_status ≠ some Status.canceled →
     ¬((computeMetrics kept full).yes_cost > 0 ∧
        (computeMetrics kept full).no_cost = 0) →
     ¬((computeMetrics kept full).yes_cost = 0 ∧
        (computeMetrics kept full).no_cost > 0) →
     |(computeMetrics kept full).no_cost - (computeMetrics kept full).xd_no_cost
        - (computeMetrics kept full).yes_cost| < 20 →
     smartCost (computeMetrics kept full) =
       (computeMetrics kept full).yes_cost + (computeMetrics kept full).no_cost) := by
  have hfil : full.filter (fun l => l.main && l.status == Status.complete) = [] := by
    rw [List.filter_eq_nil_iff]
    intro l hl
    have h9 := List.all_eq_true.mp hnp l hl
    rw [Bool.not_eq_true'] at h9
    simp [h9]
  have hsum : primaryCostSum full = none := by
    unfold primaryCostSum
    simp [hfil]
  have hflag : hasMatchingNoRow kept full = false := by
    unfold hasMatchingNoRow
    rw [hsum]
    simp
  refine ⟨hflag, fun hne h1 h2 h3 => ?_⟩
  have hcm : (computeMetrics kept full).has_matching_no_row = false := hflag
  unfold smartCost
  rw [if_neg hne, if_neg h1, if_neg h2, if_pos h3, hcm]
  simp

/-- Witness for C10: a single secondary Complete leg with negative cost
(so that neither of the first two cost branches fires and the tolerance
branch is reached). -/
theorem claim_C10_no_primary_no_duplicate_witness :
    hasMatchingNoRow [legNeg] [legNeg] = false ∧
      smartCost (computeMetrics [legNeg] [legNeg]) =
        (computeMetrics [legNeg] [legNeg]).yes_cost
          + (computeMetrics [legNeg] [legNeg]).no_cost := by
  have h := claim_C10_no_primary_no_duplicate [legNeg] [legNeg] (by decide)
  refine ⟨h.1, h.2 ?_ ?_ ?_ ?_⟩
  · decide
  · norm_num +decide [computeMetrics, yesCost, noCost, legNeg, cv]
  · norm_num +decide [computeMetrics, yesCost, noCost, legNeg, cv]
  · norm_num +decide [computeMetrics, yesCost, noCost, xdNoCost, legNeg, cv, isXd]

/- ## C8: order_status of the primary leg -/

/-- C8 counterexample: an order consisting of one secondary Complete leg
has `order_status = MAX(CASE WHEN mainShipment='YES' ...) = NULL` — there
is no fallback to the status of a non-primary leg. -/
theorem claim_C8_order_status_counterexample :
    orderStatus [legSec] = none ∧ legSec.status = Status.complete := by
  constructor
  · simp [orderStatus, legSec]
  · rfl

/-- An `any` of a conjunction with the primary flag equals `any` over the
filtered primary legs. -/
theorem any_main_and (legs : List Leg) (q : Leg → Bool) :
    (legs.any fun l => l.main && q l) = ((legs.filter fun l => l.main).any q) :=
  (List.any_filter).symm

/-- With no primary leg at all, every primary-guarded `any` is false. -/
theorem any_main_false (legs : List Leg) (q : Leg → Bool)
    (h : (legs.all fun l => !l.main) = true) :
    (legs.any fun l => l.main && q l) = false := by
  rw [any_main_and]
  have hfil : legs.filter (fun l => l.main) = [] := by
    rw [List.filter_eq_nil_iff]
    intro l hl
    simpa using List.all_eq_true.mp h l hl
  rw [hfil]
  rfl

/-- C8 amended: `order_status` is the collation-maximum status over the
order's primary legs (for a unique primary leg, that leg's status); with
no primary leg it is NULL — the code never falls back to a non-primary
leg's status. -/
theorem claim_C8_order_status_amended :
    (∀ (legs : List Leg) (p : Leg),
       legs.filter (fun l => l.main) = [p] →
       p.status = Status.complete ∨ p.status = Status.canceled →
       orderStatus legs = some p.status) ∧
    (∀ legs : List Leg, (legs.all fun l => !l.main) = true →
       orderStatus legs = none) := by
  constructor
  · intro legs p hfil hps
    unfold orderStatus
    rw [any_main_and, any_main_and, hfil]
    rcases hps with h | h <;> simp [h]
  · intro legs hall
    unfold orderStatus
    rw [any_main_false _ _ hall, any_main_false _ _ hall]
    rfl

/-- Witness for the amended C8: an order whose unique primary leg is
Complete gets `order_status = Complete`. -/
theorem claim_C8_order_status_amended_witness :
    orderStatus [legP, legX] = some Status.complete :=
  claim_C8_order_status_amended.1 [legP, legX] legP rfl (Or.inl rfl)

/- ## C7: lane determination and the NA sentinel -/

/-- C7 counterexample: a primary leg whose `startMarket` is the empty
string (non-NULL) yields the lane component `""`, not the claimed
sentinel `"NA"` — `COALESCE` only replaces NULL. -/
theorem claim_C7_lane_counterexample :
    laneStart [legEmptyMkt] = "" ∧ ("" : String) ≠ "NA" := by
  constructor
  · simp [laneStart, legEmptyMkt, List.max?, List.filterMap_cons]
  · decide

/-- C7 amended: the lane comes from the primary leg's markets; both
components fall back to `"NA"` when the order has no primary leg or the
primary markets are NULL (the empty string is carried through unchanged);
an order with no primary leg still produces its Diagnostics row. -/
theorem claim_C7_lane_amended :
    (∀ legs : List Leg, (legs.all fun l => !l.main) = true →
       laneStart legs = "NA" ∧ laneEnd legs = "NA") ∧
    (∀ legs : List Leg,
       (legs.all fun l => !l.main || l.startMarket == none) = true →
       laneStart legs = "NA") ∧
    (∀ legs : List Leg,
       (legs.all fun l => !l.main || l.endMarket == none) = true →
       laneEnd legs = "NA") ∧
    (∀ (os : List Order) (o : Order), o ∈ os → (dkept o).isEmpty = false →
       diagRow o ∈ diagRows os) := by
  refine ⟨fun legs hall => ?_, fun legs hall => ?_, fun legs hall => ?_,
    fun os o ho hne => ?_⟩
  · have hs : (legs.filterMap fun l => if l.main then l.startMarket else none) = [] := by
      rw [List.filterMap_eq_nil_iff]
      intro l hl
      have := List.all_eq_true.mp hall l hl
      simp_all
    have he : (legs.filterMap fun l => if l.main then l.endMarket else none) = [] := by
      rw [List.filterMap_eq_nil_iff]
      intro l hl
      have := List.all_eq_true.mp hall l hl
      simp_all
    constructor
    · unfold laneStart; rw [hs]; rfl
    · unfold laneEnd; rw [he]; rfl
  · have hs : (legs.filterMap fun l => if l.main then l.startMarket else none) = [] := by
      rw [List.filterMap_eq_nil_iff]
      intro l hl
      have hor : l.main = false ∨ l.startMarket = none := by
        simpa using List.all_eq_true.mp hall l hl
      rcases hor with h | h <;> simp [h]
    unfold laneStart
    rw [hs]
    rfl
  · have he : (legs.filterMap fun l => if l.main then l.endMarket else none) = [] := by
      rw [List.filterMap_eq_nil_iff]
      intro l hl
      have hor : l.main = false ∨ l.endMarket = none := by
        simpa using List.all_eq_true.mp hall l hl
      rcases hor with h | h <;> simp [h]
    unfold laneEnd
    rw [he]
    rfl
  · unfold diagRows
    exact List.mem_map_of_mem diagRow (List.mem_filter.mpr ⟨ho, by simp [hne]⟩)

/-- Witness for the amended C7: a secondary-only order resolves to the
`("NA","NA")` lane, a primary leg with a NULL `endMarket` resolves its end
component to `"NA"`, and the order keeps its Diagnostics row. -/
theorem claim_C7_lane_amended_witness :
    laneStart [legSec] = "NA" ∧ laneEnd [legNullEnd] = "NA" ∧
      diagRow oParcel ∈ diagRows [oParcel] := by
  refine ⟨?_, ?_, ?_⟩
  · exact (claim_C7_lane_amended.1 [legSec] (by decide)).1
  · exact claim_C7_lane_amended.2.2.1 [legNullEnd] (by decide)
  · exact claim_C7_lane_amended.2.2.2 [oParcel] oParcel (by simp) (by rfl)

end ProfitByLane

namespace ProfitByLane

/- ## C4: FullTruckload additivity -/

/-- The FTL CASE sum splits into Completed-primary, Completed-secondary
and canceled-cross-dock parts. -/
theorem ftl_case_split (legs : List Leg) (f : Leg → ℚ) :
    (legs.map fun l =>
      if l.status == Status.complete then f l
      else if l.status == Status.canceled && isXd l then f l else 0).sum
    = ((legs.filter fun l => l.main && l.status == Status.complete).map f).sum
      + ((legs.filter fun l => !l.main && l.status == Status.complete).map f).sum
      + ((legs.filter fun l => l.status == Status.canceled && isXd l).map f).sum := by
  induction legs with
  | nil => simp
  | cons l ls ih =>
    cases hm : l.main <;> cases hs : l.status <;> cases hx : isXd l <;>
      simp [List.filter_cons, hm, hs, hx] at ih ⊢ <;> linarith [ih]

/-- C4 counterexample: a Completed FullTruckload order that also owns a
canceled cross-dock leg is reconciled to 110 (the canceled cross-dock
revenue 10 is added in), not to the claimed Completed-legs sum 100. -/
theorem claim_C4_ftl_additive_counterexample :
    ftlStatus (skept oFtl) = some Status.complete ∧
    ftlRevenue (skept oFtl) = 110 ∧
    yesRev (skept oFtl) + noRev (skept oFtl) = 100 ∧
    ((110 : ℚ) ≠ 100) := by
  refine ⟨by decide, ?_, ?_, by norm_num⟩
  · norm_num +decide [ftlRevenue, skept, oFtl, legFP, legSX, validMkt, hasXd,
      isXd, rv]
  · norm_num +decide [yesRev, noRev, skept, oFtl, legFP, legSX, validMkt,
      hasXd, isXd, rv]

/-- C4 amended: the `ftl_orders` reconciled revenue and cost are the sums
of the Completed primary legs, the Completed secondary legs AND the
canceled cross-dock legs (the last addend is what the original claim
omits); for an order without canceled cross-dock legs this is exactly
`primary + secondary`. -/
theorem claim_C4_ftl_additive_amended (legs : List Leg) :
    ftlRevenue legs = yesRev legs + noRev legs + canceledXdRev legs ∧
    ftlCost legs = yesCost legs + noCost legs + canceledXdCost legs :=
  ⟨ftl_case_split legs rv, ftl_case_split legs cv⟩

/- ## C1: the canceled-order override -/

/-- An `ite` over a false Boolean condition takes the else branch. -/
theorem ite_cond_false {α : Sort 1} {c : Bool} (h : c = false) (a b : α) :
    (if c then a else b) = b := by
  rw [h]
  exact if_neg (by simp)

/-- An `ite` over a true Boolean condition takes the then branch. -/
theorem ite_cond_true {α : Sort 1} {c : Bool} (h : c = true) (a b : α) :
    (if c then a else b) = a := by
  rw [h]
  exact if_pos rfl

/-- When no Complete leg is present, the Complete-or-canceled-cross-dock
CASE sum reduces to the canceled cross-dock sum. -/
theorem ftl_case_no_complete (legs : List Leg) (f : Leg → ℚ)
    (h : (legs.any fun l => l.status == Status.complete) = false) :
    (legs.map fun l =>
      if l.status == Status.complete then f l
      else if l.status == Status.canceled && isXd l then f l else 0).sum
    = ((legs.filter fun l => l.status == Status.canceled && isXd l).map f).sum := by
  induction legs with
  | nil => simp
  | cons l ls ih =>
    obtain ⟨h1, h2⟩ : (l.status == Status.complete) = false ∧
        (ls.any fun l => l.status == Status.complete) = false := by
      simpa using h
    rw [List.map_cons, List.sum_cons, List.filter_cons, ite_cond_false h1]
    have ihh := ih h2
    cases hx : (l.status == Status.canceled && isXd l) <;>
      (simp at ihh ⊢; linarith [ihh])

/-- Filtering the canceled legs first does not change the canceled
cross-dock subset. -/
theorem filter_canceled_xd (legs : List Leg) :
    ((legs.filter fun l => l.status == Status.canceled).filter
      fun l => l.status == Status.canceled && isXd l)
    = legs.filter fun l => l.status == Status.canceled && isXd l := by
  induction legs with
  | nil => rfl
  | cons l ls ih =>
    cases hs : (l.status == Status.canceled) <;> cases hx : isXd l <;>
      simp [List.filter_cons, hs, hx, ih]

/-- C1 amended: the canceled-order override holds for the LTL smart
strategy and for the FTL aggregation (revenue and cost are the canceled
cross-dock sums over the kept rows); in the Parcel/Other branch the
canceled sums range only over the order's PRIMARY kept rows, because that
query filters `mainShipment='YES'` before aggregating. -/
theorem claim_C1_canceled_override_amended :
    (∀ kept full : List Leg, orderStatus kept = some Status.canceled →
       smartRevenue (computeMetrics kept full) = canceledXdRev kept ∧
       smartCost (computeMetrics kept full) = canceledXdCost kept) ∧
    (∀ legs : List Leg, ftlStatus legs = some Status.canceled →
       ftlRevenue legs = canceledXdRev legs ∧
       ftlCost legs = canceledXdCost legs) ∧
    (∀ o : Order,
       (otherRowFor o Status.canceled).smart_revenue
           = canceledXdRev (otherLegs o) ∧
       (otherRowFor o Status.canceled).smart_cost
           = canceledXdCost (otherLegs o)) := by
  refine ⟨fun kept full hst => ?_, fun legs hst => ?_, fun o => ?_⟩
  · have h1 : (computeMetrics kept full).order_status = some Status.canceled := hst
    constructor
    · unfold smartRevenue
      rw [if_pos h1]
      rfl
    · unfold smartCost
      rw [if_pos h1]
      rfl
  · cases hb : (legs.any fun l => l.status == Status.complete)
    · exact ⟨ftl_case_no_complete legs rv hb, ftl_case_no_complete legs cv hb⟩
    · exfalso
      unfold ftlStatus at hst
      rw [if_pos hb] at hst
      exact some_complete_ne_some_canceled hst
  · have hnc : (((otherLegs o).filter fun l =>
        l.status == Status.canceled).any fun l =>
          l.status == Status.complete) = false := by
      rw [List.any_filter, List.any_eq_false]
      intro l hl
      cases hs : l.status <;> simp [hs]
    constructor
    · show otherRevenue ((otherLegs o).filter fun l =>
        l.status == Status.canceled) = canceledXdRev (otherLegs o)
      unfold otherRevenue canceledXdRev
      rw [ftl_case_no_complete _ rv hnc, filter_canceled_xd]
    · show otherCost ((otherLegs o).filter fun l =>
        l.status == Status.canceled) = canceledXdCost (otherLegs o)
      unfold otherCost canceledXdCost
      rw [ftl_case_no_complete _ cv hnc, filter_canceled_xd]

/-- Witness for the amended C1: a canceled order made of one canceled
cross-dock primary leg, through the LTL and the FTL paths. -/
theorem claim_C1_canceled_override_amended_witness :
    smartRevenue (computeMetrics [legCX] [legCX]) = canceledXdRev [legCX] ∧
    ftlRevenue [legCX] = canceledXdRev [legCX] :=
  ⟨(claim_C1_canceled_override_amended.1 [legCX] [legCX] (by decide)).1,
   (claim_C1_canceled_override_amended.2.1 [legCX] (by decide)).1⟩

/-- C1 counterexample: the canceled Parcel order `oParcel` has canceled
cross-dock revenue 10 (on a secondary leg), but the Summary "All" query
reconciles it to revenue 0 — the Parcel branch never sees secondary rows,
so the override does NOT hold "regardless of shipment category". -/
theorem claim_C1_canceled_override_counterexample :
    (summaryAllRows [oParcel]).map Row.order_status = [some Status.canceled] ∧
    (summaryAllRows [oParcel]).map Row.smart_revenue = [0] ∧
    canceledXdRev (skept oParcel) = 10 ∧ ((0 : ℚ) ≠ 10) := by
  refine ⟨by decide, ?_, ?_, by norm_num⟩
  · norm_num +decide [summaryAllRows, otherRows, otherRowFor, otherLegs,
      otherRevenue, skept, oParcel, legPC, legSX, validMkt, hasXd, isXd, rv,
      List.filter_cons]
  · norm_num +decide [canceledXdRev, skept, oParcel, legPC, legSX, validMkt,
      hasXd, isXd, rv, List.filter_cons]

end ProfitByLane

namespace ProfitByLane

/- ## C5: the "All categories" rollup mode -/

/-- C5 counterexample: in the Diagnostics page's "All" mode the LTL smart
strategy is applied to the FullTruckload order `oFtl2` (two Complete legs,
100 + 100 revenue): the tolerance branch keeps only 100, while the
FullTruckload strategy sums both legs to 200 — one category's rule applied
to another category's order. -/
theorem claim_C5_rollup_union_counterexample :
    oFtl2.category = Category.ftl ∧ diagRevenue oFtl2 = 100 ∧
      ftlRevenue (skept oFtl2) = 200 ∧ ((100 : ℚ) ≠ 200) := by
  refine ⟨rfl, ?_, ?_, by norm_num⟩
  · norm_num +decide [diagRevenue, computeMetrics, smartRevenue, orderStatus,
      yesRev, noRev, xdLegRev, canceledXdRev, dkept, oFtl2, legFP, legFS, rv,
      isXd, List.filter_cons]
  · norm_num +decide [ftlRevenue, skept, oFtl2, legFP, legFS, validMkt,
      hasXd, isXd, rv, List.filter_cons]

/-- Moving the third block of a three-block append to the front is a
permutation. -/
theorem append_block_perm {α : Type} (A B X C : List α) :
    (A ++ (B ++ (X ++ C))).Perm (X ++ (A ++ (B ++ C))) := by
  have h1 : (B ++ (X ++ C)).Perm (X ++ (B ++ C)) := by
    have h := (@List.perm_append_comm α B X).append_right C
    rw [List.append_assoc, List.append_assoc] at h
    exact h
  have h2 : (A ++ (X ++ (B ++ C))).Perm (X ++ (A ++ (B ++ C))) := by
    have h := (@List.perm_append_comm α A X).append_right (B ++ C)
    rw [List.append_assoc, List.append_assoc] at h
    exact h
  exact (h1.append_left A).trans h2

/-- C5 amended: the Summary view's "All" mode reconciles each order with
its own category's strategy and unions the per-order rows (equal up to the
ordering of the union); the Diagnostics page's "All" mode instead applies
the LTL smart strategy to every order regardless of category. -/
theorem claim_C5_rollup_union_amended (os : List Order) :
    (summaryAllRows os).Perm (os.flatMap perCategoryRows) := by
  induction os with
  | nil => simp [summaryAllRows]
  | cons o os ih =>
    simp only [summaryAllRows, List.append_assoc] at ih
    cases hc : o.category with
    | ftl =>
      simp only [summaryAllRows, List.filter_cons, List.flatMap_cons,
        perCategoryRows, hc]
      simp +decide [List.append_assoc]
      exact List.perm_middle.trans (ih.cons _)
    | ltl =>
      simp only [summaryAllRows, List.filter_cons, List.flatMap_cons,
        perCategoryRows, hc]
      simp +decide [List.append_assoc]
      exact ih
    | parcel =>
      simp only [summaryAllRows, List.filter_cons, List.flatMap_cons,
        perCategoryRows, hc]
      simp +decide [List.append_assoc]
      exact (append_block_perm _ _ _ _).trans (ih.append_left _)
    | otherCat =>
      simp only [summaryAllRows, List.filter_cons, List.flatMap_cons,
        perCategoryRows, hc]
      simp +decide [List.append_assoc]
      exact (append_block_perm _ _ _ _).trans (ih.append_left _)

end ProfitByLane
